import Mathlib

/-!
Shallow embedding of the `Bridiro/raytracer` sources (src/math.rs, src/material.rs,
src/scene.rs, src/camera.rs, src/lib.rs and the GLSL fragment shader embedded in
src/shaders.rs).  `f32` values are idealised as real numbers; every definition
mirrors the corresponding Rust or GLSL function it is named after.
-/

noncomputable section

namespace RT

/-- Three-component vector, mirroring `Vec3` in src/math.rs (fields x, y, z). -/
@[ext]
structure Vec3 where
  x : ℝ
  y : ℝ
  z : ℝ

/-- Rust `Vec3::new`. -/
def Vec3.new (x y z : ℝ) : Vec3 := ⟨x, y, z⟩

/-- Rust `impl Add for Vec3` (componently). -/
def Vec3.add (a b : Vec3) : Vec3 := ⟨a.x + b.x, a.y + b.y, a.z + b.z⟩

/-- Rust `impl Sub for Vec3`. -/
def Vec3.sub (a b : Vec3) : Vec3 := ⟨a.x - b.x, a.y - b.y, a.z - b.z⟩

/-- Rust `impl Mul<f32> for Vec3` (scalar on the right). -/
def Vec3.smul (a : Vec3) (s : ℝ) : Vec3 := ⟨a.x * s, a.y * s, a.z * s⟩

/-- Rust `impl Mul<Vec3> for Vec3` (Hadamard product). -/
def Vec3.hmul (a b : Vec3) : Vec3 := ⟨a.x * b.x, a.y * b.y, a.z * b.z⟩

/-- Rust `impl Div<f32> for Vec3`. -/
def Vec3.divs (a : Vec3) (s : ℝ) : Vec3 := ⟨a.x / s, a.y / s, a.z / s⟩

/-- Rust `impl Neg for Vec3`. -/
def Vec3.neg (a : Vec3) : Vec3 := ⟨-a.x, -a.y, -a.z⟩

/-- Rust `Vec3::dot`. -/
def Vec3.dot (a b : Vec3) : ℝ := a.x * b.x + a.y * b.y + a.z * b.z

/-- Rust `Vec3::cross`. -/
def Vec3.cross (a b : Vec3) : Vec3 :=
  ⟨a.y * b.z - a.z * b.y, a.z * b.x - a.x * b.z, a.x * b.y - a.y * b.x⟩

/-- Rust `Vec3::length_squared`. -/
def Vec3.lengthSq (a : Vec3) : ℝ := a.x * a.x + a.y * a.y + a.z * a.z

/-- Rust `Vec3::length` (`sqrt` of the sum of squares). -/
def Vec3.length (a : Vec3) : ℝ := Real.sqrt a.lengthSq

/-- Rust `Vec3::normalize`: divide by the length when it is positive, otherwise
return the vector unchanged. -/
def Vec3.normalize (a : Vec3) : Vec3 :=
  if 0 < a.length then ⟨a.x / a.length, a.y / a.length, a.z / a.length⟩ else a

/-- Rust `MaterialType` from src/material.rs. -/
inductive MaterialType where
  | Lambertian
  | Metal
  | Dielectric
deriving DecidableEq

/-- Rust `Material` from src/material.rs. -/
@[ext]
structure Material where
  material_type : MaterialType
  albedo : Vec3
  roughness : ℝ
  ior : ℝ

/-- Rust `Material::new`. -/
def Material.new (t : MaterialType) (albedo : Vec3) (roughness ior : ℝ) : Material :=
  ⟨t, albedo, roughness, ior⟩

/-- Rust `f32::clamp(self, lo, hi)` as implemented in Rust (first compare against the
lower bound, then against the upper bound). -/
def clampf (x lo hi : ℝ) : ℝ := if x < lo then lo else if hi < x then hi else x

/-- Rust `Material::lambertian`. -/
def Material.lambertian (albedo : Vec3) : Material :=
  Material.new .Lambertian albedo 0 1

/-- Rust `Material::metal`: the roughness argument is clamped to `[0, 1]`. -/
def Material.metal (albedo : Vec3) (roughness : ℝ) : Material :=
  Material.new .Metal albedo (clampf roughness 0 1) 1

/-- Rust `Material::dielectric`. -/
def Material.dielectric (ior : ℝ) : Material :=
  Material.new .Dielectric ⟨1, 1, 1⟩ 0 ior

/-- Rust `Sphere` from src/scene.rs. -/
structure Sphere where
  center : Vec3
  radius : ℝ
  material : Material

/-- Rust `Plane` from src/scene.rs (constructor normalizes the normal, see `Plane.new`). -/
structure Plane where
  point : Vec3
  normal : Vec3
  material : Material

/-- Rust `Plane::new` normalizes the supplied normal. -/
def Plane.new (point normal : Vec3) (material : Material) : Plane :=
  ⟨point, normal.normalize, material⟩

/-- Rust `Box` from src/scene.rs (named `BoxP` here because `Box` is taken). -/
structure BoxP where
  center : Vec3
  size : Vec3
  material : Material

/-- Rust `Cylinder` from src/scene.rs. -/
structure Cylinder where
  base : Vec3
  axis : Vec3
  radius : ℝ
  material : Material

/-- Rust `Triangle` from src/scene.rs. -/
structure Triangle where
  v0 : Vec3
  v1 : Vec3
  v2 : Vec3
  material : Material

/-- Rust `Light` from src/scene.rs. -/
structure Light where
  position : Vec3
  color : Vec3
  intensity : ℝ

/-- Rust `Scene` from src/scene.rs: unbounded vectors of primitives and lights plus a
background color. -/
structure Scene where
  spheres : List Sphere
  planes : List Plane
  boxes : List BoxP
  cylinders : List Cylinder
  triangles : List Triangle
  lights : List Light
  background_color : Vec3

/-- Rust `Scene::new`: empty collections and the default sky-blue background. -/
def Scene.new : Scene :=
  { spheres := [], planes := [], boxes := [], cylinders := [], triangles := []
    lights := [], background_color := ⟨0.5, 0.7, 1.0⟩ }

/-- Rust `Scene::add_sphere` (push at the end). -/
def Scene.add_sphere (s : Scene) (sp : Sphere) : Scene :=
  { s with spheres := s.spheres ++ [sp] }

/-- Rust `Scene::add_plane`. -/
def Scene.add_plane (s : Scene) (p : Plane) : Scene :=
  { s with planes := s.planes ++ [p] }

/-- Rust `Scene::add_box`. -/
def Scene.add_box (s : Scene) (b : BoxP) : Scene :=
  { s with boxes := s.boxes ++ [b] }

/-- Rust `Scene::add_cylinder`. -/
def Scene.add_cylinder (s : Scene) (c : Cylinder) : Scene :=
  { s with cylinders := s.cylinders ++ [c] }

/-- Rust `Scene::add_triangle`. -/
def Scene.add_triangle (s : Scene) (t : Triangle) : Scene :=
  { s with triangles := s.triangles ++ [t] }

/-- Rust `Scene::add_light`. -/
def Scene.add_light (s : Scene) (l : Light) : Scene :=
  { s with lights := s.lights ++ [l] }

/-- Rust `Scene::set_background`. -/
def Scene.set_background (s : Scene) (c : Vec3) : Scene :=
  { s with background_color := c }

/-- The integer code `Scene::set_uniforms` sends for a material kind
(0 Lambertian, 1 Metal, 2 Dielectric). -/
def materialTypeCode : MaterialType → ℤ
  | .Lambertian => 0
  | .Metal => 1
  | .Dielectric => 2

/-- The GLSL `Sphere` uniform struct from the fragment shader in src/shaders.rs. -/
structure GSphere where
  center : Vec3
  radius : ℝ
  albedo : Vec3
  material_type : ℤ
  roughness : ℝ
  ior : ℝ

/-- The GLSL `Plane` uniform struct from the fragment shader. -/
structure GPlane where
  point : Vec3
  normal : Vec3
  albedo : Vec3
  material_type : ℤ

/-- The GLSL `Light` uniform struct from the fragment shader. -/
structure GLight where
  position : Vec3
  color : Vec3
  intensity : ℝ

/-- The `u_boxes[i]` uniform fields written by `Scene::set_uniforms`
(the fragment shader itself declares no such uniform). -/
structure GBox where
  center : Vec3
  size : Vec3
  albedo : Vec3
  material_type : ℤ
  roughness : ℝ
  ior : ℝ

/-- The `u_cylinders[i]` uniform fields written by `Scene::set_uniforms`. -/
structure GCylinder where
  base : Vec3
  axis : Vec3
  radius : ℝ
  albedo : Vec3
  material_type : ℤ
  roughness : ℝ
  ior : ℝ

/-- The `u_triangles[i]` uniform fields written by `Scene::set_uniforms`. -/
structure GTriangle where
  v0 : Vec3
  v1 : Vec3
  v2 : Vec3
  albedo : Vec3
  material_type : ℤ
  roughness : ℝ
  ior : ℝ

/-- Per-sphere upload performed by `Scene::set_uniforms`. -/
def sphereUniform (s : Sphere) : GSphere :=
  ⟨s.center, s.radius, s.material.albedo, materialTypeCode s.material.material_type,
    s.material.roughness, s.material.ior⟩

/-- Per-plane upload performed by `Scene::set_uniforms`. -/
def planeUniform (p : Plane) : GPlane :=
  ⟨p.point, p.normal, p.material.albedo, materialTypeCode p.material.material_type⟩

/-- Per-box upload performed by `Scene::set_uniforms`. -/
def boxUniform (b : BoxP) : GBox :=
  ⟨b.center, b.size, b.material.albedo, materialTypeCode b.material.material_type,
    b.material.roughness, b.material.ior⟩

/-- Per-cylinder upload performed by `Scene::set_uniforms`. -/
def cylinderUniform (c : Cylinder) : GCylinder :=
  ⟨c.base, c.axis, c.radius, c.material.albedo, materialTypeCode c.material.material_type,
    c.material.roughness, c.material.ior⟩

/-- Per-triangle upload performed by `Scene::set_uniforms`. -/
def triangleUniform (t : Triangle) : GTriangle :=
  ⟨t.v0, t.v1, t.v2, t.material.albedo, materialTypeCode t.material.material_type,
    t.material.roughness, t.material.ior⟩

/-- Per-light upload performed by `Scene::set_uniforms`. -/
def lightUniform (l : Light) : GLight :=
  ⟨l.position, l.color, l.intensity⟩

/-- Everything `Scene::set_uniforms` writes into the GL program: per-type data
truncated at the per-type cap plus the truncated counts and the background
color. -/
structure SceneUniforms where
  sphere_count : ℕ
  spheres : List GSphere
  plane_count : ℕ
  planes : List GPlane
  box_count : ℕ
  boxes : List GBox
  cylinder_count : ℕ
  cylinders : List GCylinder
  triangle_count : ℕ
  triangles : List GTriangle
  light_count : ℕ
  lights : List GLight
  background_color : Vec3

/-- Rust `Scene::set_uniforms` from src/scene.rs: each vector is consumed through
`.take(cap)` (spheres 10, planes 5, boxes 5, cylinders 5, triangles 10,
lights 4) and each count is `len.min(cap)`; the scene itself is only read. -/
def Scene.set_uniforms (s : Scene) : SceneUniforms :=
  { sphere_count := min s.spheres.length 10
    spheres := (s.spheres.take 10).map sphereUniform
    plane_count := min s.planes.length 5
    planes := (s.planes.take 5).map planeUniform
    box_count := min s.boxes.length 5
    boxes := (s.boxes.take 5).map boxUniform
    cylinder_count := min s.cylinders.length 5
    cylinders := (s.cylinders.take 5).map cylinderUniform
    triangle_count := min s.triangles.length 10
    triangles := (s.triangles.take 10).map triangleUniform
    light_count := min s.lights.length 4
    lights := (s.lights.take 4).map lightUniform
    background_color := s.background_color }

/-- The GLSL `Ray` struct. -/
structure Ray where
  origin : Vec3
  dir : Vec3

/-- The GLSL `Material` struct carried inside a hit record. -/
structure GMaterial where
  albedo : Vec3
  material_type : ℤ
  roughness : ℝ
  ior : ℝ

/-- The GLSL `HitRecord` struct. -/
structure HitRecord where
  point : Vec3
  normal : Vec3
  t : ℝ
  front_face : Bool
  material : GMaterial

/-- The hit record `hitSphere` fills in at parameter `t`. -/
def sphereRec (s : GSphere) (ray : Ray) (t : ℝ) : HitRecord :=
  let point := ray.origin.add (ray.dir.smul t)
  let outward := (point.sub s.center).divs s.radius
  let front := decide (ray.dir.dot outward < 0)
  { point := point
    normal := if front then outward else outward.neg
    t := t
    front_face := front
    material := ⟨s.albedo, s.material_type, s.roughness, s.ior⟩ }

/-- GLSL `hitSphere`: quadratic test, nearer root first, both roots checked
strictly against `(t_min, t_max)`. -/
def hitSphere (s : GSphere) (ray : Ray) (tmin tmax : ℝ) : Option HitRecord :=
  let oc := ray.origin.sub s.center
  let a := ray.dir.dot ray.dir
  let b := oc.dot ray.dir
  let c := oc.dot oc - s.radius * s.radius
  let disc := b * b - a * c
  if 0 < disc then
    let t1 := (-b - Real.sqrt disc) / a
    if t1 < tmax ∧ tmin < t1 then some (sphereRec s ray t1)
    else
      let t2 := (-b + Real.sqrt disc) / a
      if t2 < tmax ∧ tmin < t2 then some (sphereRec s ray t2) else none
  else none

/-- GLSL `hitPlane`: near-parallel denominators (|denom| ≤ 1e-4) miss; the
parameter is checked inclusively against `[t_min, t_max]`. -/
def hitPlane (p : GPlane) (ray : Ray) (tmin tmax : ℝ) : Option HitRecord :=
  let denom := p.normal.dot ray.dir
  if 0.0001 < |denom| then
    let t := ((p.point.sub ray.origin).dot p.normal) / denom
    if tmin ≤ t ∧ t ≤ tmax then
      let front := decide (denom < 0)
      some { point := ray.origin.add (ray.dir.smul t)
             normal := if front then p.normal else p.normal.neg
             t := t
             front_face := front
             material := ⟨p.albedo, p.material_type, 0, 1⟩ }
    else none
  else none

/-- One pass of the shader's nearest-hit loop over a primitive list: each hit
shrinks `closest_so_far` to the hit's `t` and replaces the best record. -/
def hitLoop {α : Type} (test : α → Ray → ℝ → ℝ → Option HitRecord)
    (objs : List α) (ray : Ray) (tmin : ℝ) (acc : ℝ × Option HitRecord) :
    ℝ × Option HitRecord :=
  objs.foldl
    (fun acc obj =>
      match test obj ray tmin acc.1 with
      | some rec => (rec.t, some rec)
      | none => acc)
    acc

/-- GLSL `hitWorld`: the shader's nearest-hit search runs over the sphere
uniforms and then the plane uniforms (and over nothing else). -/
def hitWorld (spheres : List GSphere) (planes : List GPlane)
    (ray : Ray) (tmin tmax : ℝ) : Option HitRecord :=
  (hitLoop hitPlane planes ray tmin (hitLoop hitSphere spheres ray tmin (tmax, none))).2

/-- The nearest hit a rendered frame can see for a scene: `Scene::set_uniforms`
feeds the capped sphere and plane lists to the shader, whose `hitWorld` reads
only those two uniform arrays. -/
def renderedHit (s : Scene) (ray : Ray) (tmin tmax : ℝ) : Option HitRecord :=
  hitWorld (s.set_uniforms).spheres (s.set_uniforms).planes ray tmin tmax

/-- GLSL `mix(a, b, t) = a*(1-t) + b*t`, componentwise. -/
def glslMix (a b : Vec3) (t : ℝ) : Vec3 :=
  ⟨a.x * (1 - t) + b.x * t, a.y * (1 - t) + b.y * t, a.z * (1 - t) + b.z * t⟩

/-- The sky color of `rayColor`'s miss branch in the fragment shader:
`mix(vec3(1.0), vec3(0.5, 0.7, 1.0), 0.5*(normalize(dir).y + 1.0))`.
The blend target is the hardcoded literal; the shader declares no background
uniform. -/
def skyGradient (dir : Vec3) : Vec3 :=
  glslMix ⟨1, 1, 1⟩ ⟨0.5, 0.7, 1.0⟩ (0.5 * (dir.normalize.y + 1))

/-- Modelled from the spec: the sky blend the specification describes for a
miss, a vertical gradient from white to the scene's `background_color` field,
weighted by the ray direction's vertical component. -/
def skyGradientSpec (background : Vec3) (dir : Vec3) : Vec3 :=
  glslMix ⟨1, 1, 1⟩ background (0.5 * (dir.normalize.y + 1))

/-- The color update of `rayColor`'s miss branch: the sky color is multiplied
into the running color and the loop breaks. -/
def missBlend (color : Vec3) (dir : Vec3) : Vec3 :=
  color.hmul (skyGradient dir)

/-- Two-argument arctangent as Rust's `f32::atan2(self, other)`:
`y.atan2 x` is the angle of the point `(x, y)`. -/
def atan2 (y x : ℝ) : ℝ := Complex.arg ⟨x, y⟩

/-- Rust `Camera` from src/camera.rs. -/
structure Camera where
  position : Vec3
  target : Vec3
  up : Vec3
  right : Vec3
  forward : Vec3
  yaw : ℝ
  pitch : ℝ
  fov : ℝ
  aspect : ℝ
  near : ℝ
  far : ℝ

/-- Rust `Camera::update_vectors`: rebuild forward/right/up from yaw and pitch and
re-derive the target. -/
def Camera.update_vectors (c : Camera) : Camera :=
  let forward :=
    (Vec3.mk (Real.sin c.yaw * Real.cos c.pitch) (Real.sin c.pitch)
      (-(Real.cos c.yaw * Real.cos c.pitch))).normalize
  { c with
    forward := forward
    up := ⟨0, 1, 0⟩
    right := (Vec3.mk (Real.cos c.yaw) 0 (Real.sin c.yaw)).normalize
    target := c.position.add forward }

/-- Rust `Camera::new`: defaults fov 45°, near 0.1, far 100, yaw 0, pitch 0, then an
eager `update_vectors`. -/
def Camera.new (position target : Vec3) (aspect : ℝ) : Camera :=
  Camera.update_vectors
    { position := position, target := target
      up := ⟨0, 1, 0⟩, right := ⟨1, 0, 0⟩, forward := ⟨0, 0, -1⟩
      yaw := 0, pitch := 0, fov := 45 * Real.pi / 180
      aspect := aspect, near := 0.1, far := 100 }

/-- Rust `Camera::rotate`: accumulate yaw and pitch, clamp pitch to ±89°, rebuild
the basis. -/
def Camera.rotate (c : Camera) (yaw_delta pitch_delta : ℝ) : Camera :=
  Camera.update_vectors
    { c with
      yaw := c.yaw + yaw_delta
      pitch := clampf (c.pitch + pitch_delta)
        (-(89 * Real.pi / 180)) (89 * Real.pi / 180) }

/-- Rust `Camera::move_relative`: horizontal displacement from yaw only, vertical
displacement along world up; the basis is untouched. -/
def Camera.move_relative (c : Camera) (forward right up : ℝ) : Camera :=
  let forward_vec := Vec3.mk (Real.sin c.yaw) 0 (Real.cos c.yaw)
  let right_vec := Vec3.mk (Real.cos c.yaw) 0 (-(Real.sin c.yaw))
  let up_vec := Vec3.mk 0 1 0
  { c with
    position :=
      ((c.position.add (forward_vec.smul forward)).add (right_vec.smul right)).add
        (up_vec.smul up) }

/-- Rust `Camera::move_absolute`. -/
def Camera.move_absolute (c : Camera) (x y z : ℝ) : Camera :=
  { c with position := ⟨x, y, z⟩ }

/-- Rust `Camera::look_at`: re-derive yaw via `atan2` and pitch via `asin` from the
normalized direction, then rebuild the basis. -/
def Camera.look_at (c : Camera) (target : Vec3) : Camera :=
  let direction := (target.sub c.position).normalize
  Camera.update_vectors
    { c with
      target := target
      yaw := atan2 direction.z direction.x
      pitch := Real.arcsin direction.y }

/-- Rust `Camera::set_position`: move, then rebuild the basis from the unchanged
yaw/pitch. -/
def Camera.set_position (c : Camera) (position : Vec3) : Camera :=
  Camera.update_vectors { c with position := position }

/-- Rust `Camera::set_target` — identical derivation to `look_at`. -/
def Camera.set_target (c : Camera) (target : Vec3) : Camera :=
  let direction := (target.sub c.position).normalize
  Camera.update_vectors
    { c with
      target := target
      yaw := atan2 direction.z direction.x
      pitch := Real.arcsin direction.y }

/-- A camera command from the mutating surface (`rotate_camera` /
`move_camera` / `move_absolute`). -/
inductive CamCmd where
  | rotate (yaw_delta pitch_delta : ℝ)
  | moveRel (forward right up : ℝ)
  | moveAbs (x y z : ℝ)

/-- Apply one camera command. -/
def applyCmd (c : Camera) : CamCmd → Camera
  | .rotate dy dp => c.rotate dy dp
  | .moveRel f r u => c.move_relative f r u
  | .moveAbs x y z => c.move_absolute x y z

/-- Run a sequence of camera commands. -/
def runCmds (c : Camera) (cmds : List CamCmd) : Camera :=
  cmds.foldl applyCmd c

/-- The mutable state of the `Raytracer` wasm object from src/lib.rs that the
claims touch (GL handles and uniform locations are external resources). -/
structure Raytracer where
  camera : Camera
  scene : Scene
  last_frame_time : ℝ
  frame_times : List ℝ
  fps : ℝ

/-- Rust `Raytracer::clear_scene`: a fresh scene plus the re-added ground plane. -/
def Raytracer.clear_scene (rt : Raytracer) : Raytracer :=
  { rt with
    scene :=
      Scene.add_plane Scene.new
        (Plane.new ⟨0, -1, 0⟩ ⟨0, 1, 0⟩
          (Material.new .Lambertian ⟨0.5, 0.5, 0.5⟩ 0 0)) }

/-- Rust `Scene::from_json` maps the parse error of the external `serde_json` crate
(modelled as the `parse` argument) into a typed message. -/
def Scene.from_json (parse : String → Except String Scene) (json_data : String) :
    Except String Scene :=
  match parse json_data with
  | .ok s => .ok s
  | .error e => .error ("Failed to parse JSON: " ++ e)

/-- Rust `Raytracer::load_scene_json`: `self.scene = Scene::from_json(json)?` —
the scene is replaced only when parsing succeeds; the `?` propagates the error
before any assignment. Returns the state after the call and the call's result. -/
def Raytracer.load_scene_json (parse : String → Except String Scene)
    (rt : Raytracer) (json_data : String) : Raytracer × Except String Unit :=
  match Scene.from_json parse json_data with
  | .ok s => ({ rt with scene := s }, .ok ())
  | .error e => (rt, .error e)

/-- Rust `Raytracer::get_sphere_position`: in-range reads return the center as a
3-list, out-of-range reads return `[0, 0, 0]`. -/
def Raytracer.get_sphere_position (rt : Raytracer) (index : ℕ) : List ℝ :=
  if h : index < rt.scene.spheres.length then
    let pos := (rt.scene.spheres.get ⟨index, h⟩).center
    [pos.x, pos.y, pos.z]
  else [0, 0, 0]

/-- Rust `Raytracer::get_sphere_radius`: out-of-range reads return `1.0`. -/
def Raytracer.get_sphere_radius (rt : Raytracer) (index : ℕ) : ℝ :=
  if h : index < rt.scene.spheres.length then
    (rt.scene.spheres.get ⟨index, h⟩).radius
  else 1

/-- Rust `Raytracer::set_sphere_position`: out-of-range writes are ignored. -/
def Raytracer.set_sphere_position (rt : Raytracer) (index : ℕ) (x y z : ℝ) :
    Raytracer :=
  if h : index < rt.scene.spheres.length then
    { rt with
      scene :=
        { rt.scene with
          spheres :=
            rt.scene.spheres.set index
              { rt.scene.spheres.get ⟨index, h⟩ with center := ⟨x, y, z⟩ } } }
  else rt

/-- Rust `Raytracer::set_sphere_radius`: out-of-range writes are ignored. -/
def Raytracer.set_sphere_radius (rt : Raytracer) (index : ℕ) (radius : ℝ) :
    Raytracer :=
  if h : index < rt.scene.spheres.length then
    { rt with
      scene :=
        { rt.scene with
          spheres :=
            rt.scene.spheres.set index
              { rt.scene.spheres.get ⟨index, h⟩ with radius := radius } } }
  else rt

/-- The `material_type` decoding shared by `add_sphere` and
`set_sphere_material` (1 Metal, 2 Dielectric, anything else Lambertian). -/
def decodeMaterialType (code : ℕ) : MaterialType :=
  if code = 1 then .Metal else if code = 2 then .Dielectric else .Lambertian

/-- Rust `Raytracer::set_sphere_material`: out-of-range writes are ignored;
in-range writes install `Material::new(kind, rgb, 0.1, 1.5)`. -/
def Raytracer.set_sphere_material (rt : Raytracer) (index : ℕ)
    (r g b : ℝ) (material_type : ℕ) : Raytracer :=
  if h : index < rt.scene.spheres.length then
    { rt with
      scene :=
        { rt.scene with
          spheres :=
            rt.scene.spheres.set index
              { rt.scene.spheres.get ⟨index, h⟩ with
                material :=
                  Material.new (decodeMaterialType material_type) ⟨r, g, b⟩ 0.1 1.5 } } }
  else rt

/-- Rust `Raytracer::remove_sphere`: out-of-range removals are ignored; in-range
removals shift later indices down. -/
def Raytracer.remove_sphere (rt : Raytracer) (index : ℕ) : Raytracer :=
  if index < rt.scene.spheres.length then
    { rt with
      scene := { rt.scene with spheres := rt.scene.spheres.eraseIdx index } }
  else rt

/-- Rust `Raytracer::render`: updates the frame-time window and fps, then reads the
camera and calls `Scene::set_uniforms(&self.scene)`; the scene itself is only
read. Returns the new state and what the frame consumed. -/
def Raytracer.render (rt : Raytracer) (current_time : ℝ) :
    Raytracer × SceneUniforms :=
  let delta := current_time - rt.last_frame_time
  let times0 := rt.frame_times ++ [delta]
  let times := if 60 < times0.length then times0.drop 1 else times0
  let fps := if times ≠ [] then 1000 / (times.sum / times.length) else rt.fps
  ({ rt with
      last_frame_time := current_time
      frame_times := times
      fps := fps },
    rt.scene.set_uniforms)

/-- A JSON value tree (numbers idealised as reals), the shape `serde_json`
produces. -/
inductive Json where
  | num (v : ℝ)
  | str (s : String)
  | arr (elems : List Json)
  | obj (fields : List (String × Json))

/-- Field lookup in a JSON object. -/
def Json.getField : Json → String → Option Json
  | .obj fields, key => (fields.find? (fun f => f.1 = key)).map (·.2)
  | _, _ => none

/-- serde serialization of `Vec3` (fields in declaration order). -/
def vec3Json (v : Vec3) : Json :=
  .obj [("x", .num v.x), ("y", .num v.y), ("z", .num v.z)]

/-- serde serialization of a C-like enum variant: its name as a string. -/
def materialTypeJson : MaterialType → Json
  | .Lambertian => .str "Lambertian"
  | .Metal => .str "Metal"
  | .Dielectric => .str "Dielectric"

/-- serde serialization of `Material`. -/
def materialJson (m : Material) : Json :=
  .obj [("material_type", materialTypeJson m.material_type),
        ("albedo", vec3Json m.albedo),
        ("roughness", .num m.roughness),
        ("ior", .num m.ior)]

/-- serde serialization of `Sphere`. -/
def sphereJson (s : Sphere) : Json :=
  .obj [("center", vec3Json s.center), ("radius", .num s.radius),
        ("material", materialJson s.material)]

/-- serde serialization of `Plane`. -/
def planeJson (p : Plane) : Json :=
  .obj [("point", vec3Json p.point), ("normal", vec3Json p.normal),
        ("material", materialJson p.material)]

/-- serde serialization of `Box`. -/
def boxJson (b : BoxP) : Json :=
  .obj [("center", vec3Json b.center), ("size", vec3Json b.size),
        ("material", materialJson b.material)]

/-- serde serialization of `Cylinder`. -/
def cylinderJson (c : Cylinder) : Json :=
  .obj [("base", vec3Json c.base), ("axis", vec3Json c.axis),
        ("radius", .num c.radius), ("material", materialJson c.material)]

/-- serde serialization of `Triangle`. -/
def triangleJson (t : Triangle) : Json :=
  .obj [("v0", vec3Json t.v0), ("v1", vec3Json t.v1), ("v2", vec3Json t.v2),
        ("material", materialJson t.material)]

/-- serde serialization of `Light`. -/
def lightJson (l : Light) : Json :=
  .obj [("position", vec3Json l.position), ("color", vec3Json l.color),
        ("intensity", .num l.intensity)]

/-- Rust `Scene::to_json` (the value tree `serde_json::to_string_pretty` renders):
every stored entry of every vector is serialized, with no cap. -/
def Scene.to_json (s : Scene) : Json :=
  .obj [("spheres", .arr (s.spheres.map sphereJson)),
        ("planes", .arr (s.planes.map planeJson)),
        ("boxes", .arr (s.boxes.map boxJson)),
        ("cylinders", .arr (s.cylinders.map cylinderJson)),
        ("triangles", .arr (s.triangles.map triangleJson)),
        ("lights", .arr (s.lights.map lightJson)),
        ("background_color", vec3Json s.background_color)]

/-- Rust `Raytracer::export_scene_json`. -/
def Raytracer.export_scene_json (rt : Raytracer) : Json :=
  rt.scene.to_json

/-- A sample raytracer state with an empty scene, used to instantiate
universally quantified theorems. -/
def rt0 : Raytracer :=
  { camera := Camera.new ⟨0, 2, 5⟩ ⟨0, 0, 0⟩ 1
    scene := Scene.new
    last_frame_time := 0
    frame_times := []
    fps := 0 }

/-- A sample sphere. -/
def sphere0 : Sphere :=
  { center := ⟨0, 0, 0⟩, radius := 1
    material := Material.new .Lambertian ⟨0.7, 0.3, 0.3⟩ 0 0 }

/-- A sample state whose scene stores twelve spheres. -/
def rt12 : Raytracer :=
  { rt0 with scene := { Scene.new with spheres := List.replicate 12 sphere0 } }

/-- A unit box at the origin. -/
def box0 : BoxP :=
  { center := ⟨0, 0, 0⟩, size := ⟨1, 1, 1⟩
    material := Material.new .Lambertian ⟨0.7, 0.7, 0.7⟩ 0 0 }

/-- A scene whose only primitive is `box0`. -/
def boxScene : Scene :=
  { Scene.new with boxes := [box0] }

/-- The spec's test sphere: center (0,0,0), radius 1 (shader-side fields). -/
def sphereA : GSphere :=
  { center := ⟨0, 0, 0⟩, radius := 1, albedo := ⟨0.7, 0.3, 0.3⟩
    material_type := 0, roughness := 0, ior := 1 }

/-- The spec's miss sphere: center (5,5,5), radius 1. -/
def sphereB : GSphere :=
  { center := ⟨5, 5, 5⟩, radius := 1, albedo := ⟨0.7, 0.3, 0.3⟩
    material_type := 0, roughness := 0, ior := 1 }

/-- The axis-aligned ray used by the spec's sphere-hit test: origin (0,0,5),
direction (0,0,−1). -/
def rayZ : Ray := { origin := ⟨0, 0, 5⟩, dir := ⟨0, 0, -1⟩ }

/-- The basis shape `Camera::update_vectors` leaves behind: forward and right
are the yaw/pitch trigonometric vectors and up is world up. -/
def basisGood (c : Camera) : Prop :=
  c.forward = ⟨Real.sin c.yaw * Real.cos c.pitch, Real.sin c.pitch,
      -(Real.cos c.yaw * Real.cos c.pitch)⟩ ∧
  c.right = ⟨Real.cos c.yaw, 0, Real.sin c.yaw⟩ ∧
  c.up = ⟨0, 1, 0⟩

end RT

namespace RT

theorem normalize_of_lengthSq_one {v : Vec3} (h : v.lengthSq = 1) :
    v.normalize = v := by
  have hlen : v.length = 1 := by rw [Vec3.length, h, Real.sqrt_one]
  rw [Vec3.normalize, if_pos (by rw [hlen]; norm_num)]
  ext <;> simp [hlen]

/-- Claim C9: the metal constructor clamps the roughness argument into [0, 1],
so every material built through it satisfies the data-model bound. -/
theorem C9_metal_roughness_clamped (albedo : Vec3) (r : ℝ) :
    0 ≤ (Material.metal albedo r).roughness ∧
      (Material.metal albedo r).roughness ≤ 1 := by
  simp only [Material.metal, Material.new, clampf]
  split_ifs with h1 h2 <;> constructor <;> linarith

/-- Claim C10: after `clear_scene` the scene holds exactly one primitive — the
ground plane at (0,−1,0) with normal (0,1,0) and a gray Lambertian material —
zero spheres, boxes, cylinders, triangles and lights, and the default sky-blue
background. -/
theorem C10_clear_scene (rt : Raytracer) :
    (rt.clear_scene).scene.planes =
      [{ point := ⟨0, -1, 0⟩, normal := ⟨0, 1, 0⟩
         material := Material.new .Lambertian ⟨0.5, 0.5, 0.5⟩ 0 0 }] ∧
    (rt.clear_scene).scene.spheres = [] ∧
    (rt.clear_scene).scene.boxes = [] ∧
    (rt.clear_scene).scene.cylinders = [] ∧
    (rt.clear_scene).scene.triangles = [] ∧
    (rt.clear_scene).scene.lights = [] ∧
    (rt.clear_scene).scene.background_color = ⟨0.5, 0.7, 1.0⟩ := by
  have hn : (Vec3.mk 0 1 0).normalize = Vec3.mk 0 1 0 :=
    normalize_of_lengthSq_one (by simp [Vec3.lengthSq])
  simp [Raytracer.clear_scene, Scene.add_plane, Scene.new, Plane.new, hn]

/-- Claim C8: for every index at or beyond the sphere count, the index-based
accessors never fail: the position read returns [0,0,0], the radius read
returns 1, and the four writes leave the state unchanged. -/
theorem C8_oob_accessors (rt : Raytracer) (i : ℕ) (x y z radius r g b : ℝ)
    (mt : ℕ) (h : rt.scene.spheres.length ≤ i) :
    rt.get_sphere_position i = [0, 0, 0] ∧
    rt.get_sphere_radius i = 1 ∧
    rt.set_sphere_position i x y z = rt ∧
    rt.set_sphere_radius i radius = rt ∧
    rt.set_sphere_material i r g b mt = rt ∧
    rt.remove_sphere i = rt := by
  have h' : ¬ i < rt.scene.spheres.length := not_lt.mpr h
  refine ⟨?_, ?_, ?_, ?_, ?_, ?_⟩ <;>
    simp [Raytracer.get_sphere_position, Raytracer.get_sphere_radius,
      Raytracer.set_sphere_position, Raytracer.set_sphere_radius,
      Raytracer.set_sphere_material, Raytracer.remove_sphere, h']

theorem C8_oob_accessors_witness :
    rt0.scene.spheres.length ≤ 0 ∧
    (rt0.get_sphere_position 0 = [0, 0, 0] ∧
     rt0.get_sphere_radius 0 = 1 ∧
     rt0.set_sphere_position 0 1 2 3 = rt0 ∧
     rt0.set_sphere_radius 0 2 = rt0 ∧
     rt0.set_sphere_material 0 1 1 1 1 = rt0 ∧
     rt0.remove_sphere 0 = rt0) :=
  ⟨by simp [rt0, Scene.new],
    C8_oob_accessors rt0 0 1 2 3 2 1 1 1 1 (by simp [rt0, Scene.new])⟩

/-- Claim C7: importing a scene snapshot either succeeds and replaces the
scene with the parsed one, or fails with the typed parse message and leaves
the prior state exactly unchanged, for every parser outcome. -/
theorem C7_import_atomic (parse : String → Except String Scene)
    (rt : Raytracer) (input : String) :
    (∃ s, parse input = .ok s ∧
      rt.load_scene_json parse input = ({ rt with scene := s }, .ok ())) ∨
    (∃ e, parse input = .error e ∧
      rt.load_scene_json parse input =
        (rt, .error ("Failed to parse JSON: " ++ e))) := by
  cases hp : parse input with
  | ok s =>
    exact .inl ⟨s, rfl, by simp [Raytracer.load_scene_json, Scene.from_json, hp]⟩
  | error e =>
    exact .inr ⟨e, rfl, by simp [Raytracer.load_scene_json, Scene.from_json, hp]⟩

/-- Claim C5: the ray from (0,0,5) toward (0,0,−1) against the unit sphere at
the origin hits at t = 4 with point (0,0,1), front_face true and normal
(0,0,1), over any interval containing 4; against the unit sphere at (5,5,5)
it misses. -/
theorem C5_sphere_hit_and_miss (tmin tmax : ℝ) (h1 : tmin < 4) (h2 : 4 < tmax) :
    (∃ rec, hitSphere sphereA rayZ tmin tmax = some rec ∧
      rec.t = 4 ∧ rec.point = ⟨0, 0, 1⟩ ∧ rec.front_face = true ∧
      rec.normal = ⟨0, 0, 1⟩) ∧
    hitSphere sphereB rayZ tmin tmax = none := by
  constructor
  · refine ⟨sphereRec sphereA rayZ 4, ?_, ?_, ?_, ?_, ?_⟩
    · simp only [hitSphere, sphereA, rayZ, Vec3.sub, Vec3.dot]
      norm_num [Real.sqrt_one, h1, h2]
    · rfl
    · simp only [sphereRec, sphereA, rayZ, Vec3.add, Vec3.smul, Vec3.sub,
        Vec3.divs]
      ext <;> norm_num
    · simp only [sphereRec, sphereA, rayZ, Vec3.add, Vec3.smul, Vec3.sub,
        Vec3.divs, Vec3.dot, decide_eq_true_eq]
      norm_num
    · simp only [sphereRec, sphereA, rayZ, Vec3.add, Vec3.smul, Vec3.sub,
        Vec3.divs, Vec3.dot, Vec3.neg, decide_eq_true_eq]
      norm_num
  · simp only [hitSphere, sphereB, rayZ, Vec3.sub, Vec3.dot]
    norm_num

theorem C5_sphere_hit_and_miss_witness :
    ((0.001 : ℝ) < 4 ∧ (4 : ℝ) < 100) ∧
    ((∃ rec, hitSphere sphereA rayZ 0.001 100 = some rec ∧
        rec.t = 4 ∧ rec.point = ⟨0, 0, 1⟩ ∧ rec.front_face = true ∧
        rec.normal = ⟨0, 0, 1⟩) ∧
      hitSphere sphereB rayZ 0.001 100 = none) :=
  ⟨⟨by norm_num, by norm_num⟩,
    C5_sphere_hit_and_miss 0.001 100 (by norm_num) (by norm_num)⟩

/-- Claim C1: the nearest-hit search must consider boxes, cylinders and
triangles, but the fragment shader's `hitWorld` iterates only the sphere and
plane uniforms.  A scene holding one live unit box (uploaded by
`set_uniforms`, box_count = 1) that the ray from (0,0,5) toward (0,0,−1)
passes through strictly inside the interval nevertheless yields no hit. -/
theorem C1_box_hit_missed :
    ((0.001 : ℝ) < 5 ∧ (5 : ℝ) < 100 ∧
      (let p := rayZ.origin.add (rayZ.dir.smul 5)
       |p.x - box0.center.x| < box0.size.x / 2 ∧
       |p.y - box0.center.y| < box0.size.y / 2 ∧
       |p.z - box0.center.z| < box0.size.z / 2)) ∧
    (boxScene.set_uniforms).box_count = 1 ∧
    (boxScene.set_uniforms).boxes = [boxUniform box0] ∧
    renderedHit boxScene rayZ 0.001 100 = none := by
  refine ⟨⟨by norm_num, by norm_num, ?_⟩, rfl, rfl, rfl⟩
  simp only [rayZ, box0, Vec3.add, Vec3.smul]
  norm_num

/-- Claim C4: on a miss the shader blends `mix(white, vec3(0.5,0.7,1.0), t)`
with `t = 0.5*(normalize(dir).y + 1)` — a constant blend target.  With the
background color set (and uploaded) as pure red, the ray pointing straight up
is colored sky-blue, not the red the claim requires, and the blended result
multiplies the running color. -/
theorem C4_sky_ignores_background :
    ((Scene.set_background Scene.new ⟨1, 0, 0⟩).set_uniforms).background_color =
      ⟨1, 0, 0⟩ ∧
    skyGradientSpec ⟨1, 0, 0⟩ ⟨0, 1, 0⟩ = ⟨1, 0, 0⟩ ∧
    skyGradient ⟨0, 1, 0⟩ = ⟨0.5, 0.7, 1.0⟩ ∧
    missBlend ⟨1, 1, 1⟩ ⟨0, 1, 0⟩ = ⟨0.5, 0.7, 1.0⟩ ∧
    (Vec3.mk 0.5 0.7 1.0) ≠ ⟨1, 0, 0⟩ := by
  have hn : (Vec3.mk 0 1 0).normalize = Vec3.mk 0 1 0 :=
    normalize_of_lengthSq_one (by simp [Vec3.lengthSq])
  refine ⟨rfl, ?_, ?_, ?_, ?_⟩
  · simp only [skyGradientSpec, glslMix, hn]
    ext <;> norm_num
  · simp only [skyGradient, glslMix, hn]
    ext <;> norm_num
  · simp only [missBlend, skyGradient, glslMix, hn, Vec3.hmul]
    ext <;> norm_num
  · intro hcontra
    have := congrArg Vec3.x hcontra
    norm_num at this

/-- Claim C6: serialization exports every stored entry while a rendered frame
consumes only the first cap-many of each type; with 12 stored spheres the
snapshot carries all 12 but the uniforms carry exactly the first 10, and
rendering leaves the stored scene unchanged. -/
theorem C6_capacity_truncation (rt : Raytracer) (t : ℝ)
    (h : rt.scene.spheres.length = 12) :
    (rt.export_scene_json.getField "spheres" =
        some (.arr (rt.scene.spheres.map sphereJson)) ∧
      (rt.scene.spheres.map sphereJson).length = 12) ∧
    ((rt.scene.set_uniforms).spheres =
        (rt.scene.spheres.take 10).map sphereUniform ∧
      (rt.scene.set_uniforms).sphere_count = 10 ∧
      (rt.scene.set_uniforms).spheres.length = 10) ∧
    (rt.render t).1.scene = rt.scene ∧
    ((rt.scene.set_uniforms).plane_count = min rt.scene.planes.length 5 ∧
      (rt.scene.set_uniforms).box_count = min rt.scene.boxes.length 5 ∧
      (rt.scene.set_uniforms).cylinder_count = min rt.scene.cylinders.length 5 ∧
      (rt.scene.set_uniforms).triangle_count = min rt.scene.triangles.length 10 ∧
      (rt.scene.set_uniforms).light_count = min rt.scene.lights.length 4) ∧
    (rt.export_scene_json.getField "planes" =
        some (.arr (rt.scene.planes.map planeJson)) ∧
      rt.export_scene_json.getField "boxes" =
        some (.arr (rt.scene.boxes.map boxJson)) ∧
      rt.export_scene_json.getField "cylinders" =
        some (.arr (rt.scene.cylinders.map cylinderJson)) ∧
      rt.export_scene_json.getField "triangles" =
        some (.arr (rt.scene.triangles.map triangleJson)) ∧
      rt.export_scene_json.getField "lights" =
        some (.arr (rt.scene.lights.map lightJson))) := by
  refine ⟨⟨rfl, by simp [h]⟩, ⟨rfl, ?_, ?_⟩, rfl,
    ⟨rfl, rfl, rfl, rfl, rfl⟩, ⟨rfl, rfl, rfl, rfl, rfl⟩⟩
  · simp [Scene.set_uniforms, h]
  · simp [Scene.set_uniforms, h]

theorem C6_capacity_truncation_witness :
    rt12.scene.spheres.length = 12 ∧
    ((rt12.export_scene_json.getField "spheres" =
        some (.arr (rt12.scene.spheres.map sphereJson)) ∧
      (rt12.scene.spheres.map sphereJson).length = 12) ∧
    ((rt12.scene.set_uniforms).spheres =
        (rt12.scene.spheres.take 10).map sphereUniform ∧
      (rt12.scene.set_uniforms).sphere_count = 10 ∧
      (rt12.scene.set_uniforms).spheres.length = 10) ∧
    (rt12.render 0).1.scene = rt12.scene ∧
    ((rt12.scene.set_uniforms).plane_count = min rt12.scene.planes.length 5 ∧
      (rt12.scene.set_uniforms).box_count = min rt12.scene.boxes.length 5 ∧
      (rt12.scene.set_uniforms).cylinder_count =
        min rt12.scene.cylinders.length 5 ∧
      (rt12.scene.set_uniforms).triangle_count =
        min rt12.scene.triangles.length 10 ∧
      (rt12.scene.set_uniforms).light_count = min rt12.scene.lights.length 4) ∧
    (rt12.export_scene_json.getField "planes" =
        some (.arr (rt12.scene.planes.map planeJson)) ∧
      rt12.export_scene_json.getField "boxes" =
        some (.arr (rt12.scene.boxes.map boxJson)) ∧
      rt12.export_scene_json.getField "cylinders" =
        some (.arr (rt12.scene.cylinders.map cylinderJson)) ∧
      rt12.export_scene_json.getField "triangles" =
        some (.arr (rt12.scene.triangles.map triangleJson)) ∧
      rt12.export_scene_json.getField "lights" =
        some (.arr (rt12.scene.lights.map lightJson)))) :=
  ⟨by simp [rt12, rt0, Scene.new],
    C6_capacity_truncation rt12 0 (by simp [rt12, rt0, Scene.new])⟩

theorem forward_vec_lengthSq (y p : ℝ) :
    (Vec3.mk (Real.sin y * Real.cos p) (Real.sin p)
      (-(Real.cos y * Real.cos p))).lengthSq = 1 := by
  simp only [Vec3.lengthSq]
  linear_combination (Real.cos p) ^ 2 * Real.sin_sq_add_cos_sq y +
    Real.sin_sq_add_cos_sq p

theorem right_vec_lengthSq (y : ℝ) :
    (Vec3.mk (Real.cos y) 0 (Real.sin y)).lengthSq = 1 := by
  simp only [Vec3.lengthSq]
  linear_combination Real.sin_sq_add_cos_sq y

theorem update_vectors_basisGood (c : Camera) :
    basisGood c.update_vectors := by
  refine ⟨?_, ?_, rfl⟩
  · simpa [Camera.update_vectors] using
      normalize_of_lengthSq_one (forward_vec_lengthSq c.yaw c.pitch)
  · simpa [Camera.update_vectors] using
      normalize_of_lengthSq_one (right_vec_lengthSq c.yaw)

theorem basisGood_applyCmd {c : Camera} (h : basisGood c) (cmd : CamCmd) :
    basisGood (applyCmd c cmd) := by
  cases cmd with
  | rotate dy dp => exact update_vectors_basisGood _
  | moveRel f r u =>
    obtain ⟨h1, h2, h3⟩ := h
    exact ⟨h1, h2, h3⟩
  | moveAbs x y z =>
    obtain ⟨h1, h2, h3⟩ := h
    exact ⟨h1, h2, h3⟩

theorem basisGood_runCmds {c : Camera} (h : basisGood c) (cmds : List CamCmd) :
    basisGood (runCmds c cmds) := by
  induction cmds generalizing c with
  | nil => exact h
  | cons cmd rest ih => exact ih (basisGood_applyCmd h cmd)

theorem dot_forward_up_of_basisGood {c : Camera} (h : basisGood c) :
    c.forward.dot c.up = Real.sin c.pitch := by
  rw [h.1, h.2.2]
  simp [Vec3.dot]

/-- Claim C3 (amended): after any command sequence the three basis vectors are
unit and forward⋅right = right⋅up = 0, but forward⋅up equals sin(pitch) — it
vanishes only on the horizon, not for every reachable pitch. -/
theorem C3_basis_amended (p t : Vec3) (a : ℝ) (cmds : List CamCmd) :
    ((runCmds (Camera.new p t a) cmds).forward.length = 1 ∧
     (runCmds (Camera.new p t a) cmds).right.length = 1 ∧
     (runCmds (Camera.new p t a) cmds).up.length = 1) ∧
    ((runCmds (Camera.new p t a) cmds).forward.dot
        (runCmds (Camera.new p t a) cmds).right = 0 ∧
     (runCmds (Camera.new p t a) cmds).right.dot
        (runCmds (Camera.new p t a) cmds).up = 0) ∧
    (runCmds (Camera.new p t a) cmds).forward.dot
        (runCmds (Camera.new p t a) cmds).up =
      Real.sin (runCmds (Camera.new p t a) cmds).pitch := by
  have hnew : basisGood (Camera.new p t a) := by
    rw [Camera.new]
    exact update_vectors_basisGood _
  obtain ⟨h1, h2, h3⟩ := basisGood_runCmds hnew cmds
  refine ⟨⟨?_, ?_, ?_⟩, ⟨?_, ?_⟩, ?_⟩
  · rw [h1, Vec3.length, forward_vec_lengthSq, Real.sqrt_one]
  · rw [h2, Vec3.length, right_vec_lengthSq, Real.sqrt_one]
  · rw [h3, Vec3.length]
    simp [Vec3.lengthSq]
  · rw [h1, h2]
    simp only [Vec3.dot]
    ring
  · rw [h2, h3]
    simp [Vec3.dot]
  · exact dot_forward_up_of_basisGood ⟨h1, h2, h3⟩

/-- Claim C3 is refuted as stated: one `rotate(0, 1)` reaches pitch 1 rad, and
there forward⋅up = sin 1 > 1/2, far from zero. -/
theorem C3_forward_up_not_orthogonal :
    (runCmds (Camera.new ⟨0, 2, 5⟩ ⟨0, 0, 0⟩ 1) [.rotate 0 1]).forward.dot
      (runCmds (Camera.new ⟨0, 2, 5⟩ ⟨0, 0, 0⟩ 1) [.rotate 0 1]).up =
        Real.sin 1 ∧
    (1 : ℝ) / 2 < Real.sin 1 := by
  constructor
  · have hnew : basisGood (Camera.new ⟨0, 2, 5⟩ ⟨0, 0, 0⟩ 1) := by
      rw [Camera.new]
      exact update_vectors_basisGood _
    have hb := basisGood_runCmds hnew [CamCmd.rotate 0 1]
    have hdot := dot_forward_up_of_basisGood hb
    have hpitch :
        (runCmds (Camera.new ⟨0, 2, 5⟩ ⟨0, 0, 0⟩ 1) [.rotate 0 1]).pitch = 1 := by
      show clampf (0 + 1) (-(89 * Real.pi / 180)) (89 * Real.pi / 180) = 1
      have hpi3 := Real.pi_gt_three
      rw [clampf, if_neg (by nlinarith), if_neg (by push_neg; nlinarith)]
      norm_num
    rw [hdot, hpitch]
  · have h1 : Real.sin (Real.pi / 6) < Real.sin 1 := by
      have hpi3 := Real.pi_gt_three
      have hpi4 := Real.pi_lt_d2
      refine Real.strictMonoOn_sin ?_ ?_ ?_
      · constructor <;> nlinarith
      · constructor <;> nlinarith
      · nlinarith
    rw [Real.sin_pi_div_six] at h1
    exact h1

theorem normalize_components {v : Vec3} (h : 0 < v.lengthSq) :
    v.normalize = ⟨v.x / v.length, v.y / v.length, v.z / v.length⟩ := by
  have hL : 0 < v.length := Real.sqrt_pos.mpr h
  rw [Vec3.normalize, if_pos hL]

theorem normalize_lengthSq_one {v : Vec3} (h : 0 < v.lengthSq) :
    v.normalize.x * v.normalize.x + v.normalize.y * v.normalize.y +
      v.normalize.z * v.normalize.z = 1 := by
  have hL : 0 < v.length := Real.sqrt_pos.mpr h
  have hLsq : v.length * v.length = v.lengthSq :=
    Real.mul_self_sqrt (le_of_lt h)
  rw [normalize_components h]
  field_simp
  rw [hLsq, Vec3.lengthSq]

/-- The forward vector `update_vectors` builds from the yaw/pitch that
`look_at` derives from a unit, non-polar direction `d` is the quarter-turn
`(d.z, d.y, −d.x)` of `d` about the world-up axis. -/
theorem lookat_forward_core (d : Vec3)
    (hunit : d.x * d.x + d.y * d.y + d.z * d.z = 1)
    (hpole : d.x ≠ 0 ∨ d.z ≠ 0) :
    (Vec3.mk (Real.sin (atan2 d.z d.x) * Real.cos (Real.arcsin d.y))
      (Real.sin (Real.arcsin d.y))
      (-(Real.cos (atan2 d.z d.x) * Real.cos (Real.arcsin d.y)))).normalize =
      ⟨d.z, d.y, -d.x⟩ := by
  have hxz : 0 < d.x * d.x + d.z * d.z := by
    rcases hpole with h | h
    · nlinarith [mul_self_pos.mpr h, mul_self_nonneg d.z]
    · nlinarith [mul_self_pos.mpr h, mul_self_nonneg d.x]
  set r := Real.sqrt (d.x * d.x + d.z * d.z) with hr_def
  have hr : 0 < r := Real.sqrt_pos.mpr hxz
  have hz : (⟨d.x, d.z⟩ : ℂ) ≠ 0 := by
    intro hc
    rw [Complex.ext_iff] at hc
    rcases hpole with h | h
    · exact h hc.1
    · exact h hc.2
  have habs : Complex.abs ⟨d.x, d.z⟩ = r := by
    rw [Complex.abs_apply, Complex.normSq_mk]
  have hy1 : -1 ≤ d.y := by nlinarith [mul_self_nonneg d.x, mul_self_nonneg d.z, mul_self_nonneg (d.y + 1)]
  have hy2 : d.y ≤ 1 := by nlinarith [mul_self_nonneg d.x, mul_self_nonneg d.z, mul_self_nonneg (d.y - 1)]
  have hsinyaw : Real.sin (atan2 d.z d.x) = d.z / r := by
    rw [atan2, Complex.sin_arg, habs]
  have hcosyaw : Real.cos (atan2 d.z d.x) = d.x / r := by
    rw [atan2, Complex.cos_arg hz, habs]
  have hsinp : Real.sin (Real.arcsin d.y) = d.y := Real.sin_arcsin hy1 hy2
  have hcosp : Real.cos (Real.arcsin d.y) = r := by
    rw [Real.cos_arcsin, hr_def]
    congr 1
    linarith [hunit]
  rw [hsinyaw, hcosyaw, hsinp, hcosp]
  rw [div_mul_cancel₀ _ (ne_of_gt hr), div_mul_cancel₀ _ (ne_of_gt hr)]
  exact normalize_of_lengthSq_one (by simp only [Vec3.lengthSq]; linarith [hunit])

/-- Claim C2 (amended): for every target off the camera position whose
direction is not a pole, `look_at(T)` then reading forward yields the
quarter-turn `(d.z, d.y, −d.x)` of `d = normalize(T − position)` about the
vertical axis — not `d` itself: the yaw/pitch derivation is not the inverse of
the basis construction. -/
theorem C2_lookat_forward_amended (c : Camera) (T : Vec3)
    (hpole : (T.sub c.position).x ≠ 0 ∨ (T.sub c.position).z ≠ 0) :
    (c.look_at T).forward =
      ⟨((T.sub c.position).normalize).z, ((T.sub c.position).normalize).y,
        -(((T.sub c.position).normalize).x)⟩ := by
  have hvsq : 0 < (T.sub c.position).lengthSq := by
    rw [Vec3.lengthSq]
    rcases hpole with h | h
    · nlinarith [mul_self_pos.mpr h, mul_self_nonneg (T.sub c.position).y,
        mul_self_nonneg (T.sub c.position).z]
    · nlinarith [mul_self_pos.mpr h, mul_self_nonneg (T.sub c.position).x,
        mul_self_nonneg (T.sub c.position).y]
  have hL : 0 < (T.sub c.position).length := Real.sqrt_pos.mpr hvsq
  have hunit := normalize_lengthSq_one hvsq
  have hpole' : ((T.sub c.position).normalize).x ≠ 0 ∨
      ((T.sub c.position).normalize).z ≠ 0 := by
    rw [normalize_components hvsq]
    rcases hpole with h | h
    · exact .inl (div_ne_zero h (ne_of_gt hL))
    · exact .inr (div_ne_zero h (ne_of_gt hL))
  have core := lookat_forward_core ((T.sub c.position).normalize) hunit hpole'
  simpa only [Camera.look_at, Camera.update_vectors] using core

theorem C2_lookat_forward_amended_witness :
    (((⟨1, 0, 0⟩ : Vec3).sub ((Camera.new ⟨0, 0, 0⟩ ⟨0, 0, -1⟩ 1).position)).x ≠ 0 ∨
      ((⟨1, 0, 0⟩ : Vec3).sub ((Camera.new ⟨0, 0, 0⟩ ⟨0, 0, -1⟩ 1).position)).z ≠ 0) ∧
    ((Camera.new ⟨0, 0, 0⟩ ⟨0, 0, -1⟩ 1).look_at ⟨1, 0, 0⟩).forward =
      ⟨(((⟨1, 0, 0⟩ : Vec3).sub
          ((Camera.new ⟨0, 0, 0⟩ ⟨0, 0, -1⟩ 1).position)).normalize).z,
        (((⟨1, 0, 0⟩ : Vec3).sub
          ((Camera.new ⟨0, 0, 0⟩ ⟨0, 0, -1⟩ 1).position)).normalize).y,
        -((((⟨1, 0, 0⟩ : Vec3).sub
          ((Camera.new ⟨0, 0, 0⟩ ⟨0, 0, -1⟩ 1).position)).normalize).x)⟩ :=
  ⟨Or.inl (by norm_num [Camera.new, Camera.update_vectors, Vec3.sub]),
    C2_lookat_forward_amended (Camera.new ⟨0, 0, 0⟩ ⟨0, 0, -1⟩ 1) ⟨1, 0, 0⟩
      (Or.inl (by norm_num [Camera.new, Camera.update_vectors, Vec3.sub]))⟩

/-- Claim C2 is refuted as stated: with the camera at the origin,
`look_at((1,0,0))` leaves forward at (0,0,−1), not at
normalize((1,0,0) − (0,0,0)) = (1,0,0). -/
theorem C2_lookat_counterexample :
    ((Camera.new ⟨0, 0, 0⟩ ⟨0, 0, -1⟩ 1).look_at ⟨1, 0, 0⟩).forward =
      ⟨0, 0, -1⟩ ∧
    ((⟨1, 0, 0⟩ : Vec3).sub
        ((Camera.new ⟨0, 0, 0⟩ ⟨0, 0, -1⟩ 1).position)).normalize = ⟨1, 0, 0⟩ ∧
    (Vec3.mk 0 0 (-1)) ≠ ⟨1, 0, 0⟩ := by
  have hpos : (Camera.new ⟨0, 0, 0⟩ ⟨0, 0, -1⟩ 1).position = ⟨0, 0, 0⟩ := rfl
  have hsub : (⟨1, 0, 0⟩ : Vec3).sub ⟨0, 0, 0⟩ = ⟨1, 0, 0⟩ := by
    ext <;> simp [Vec3.sub]
  have hdir : ((⟨1, 0, 0⟩ : Vec3).sub ⟨0, 0, 0⟩).normalize = ⟨1, 0, 0⟩ := by
    rw [hsub]
    exact normalize_of_lengthSq_one (by simp [Vec3.lengthSq])
  refine ⟨?_, by rw [hpos]; exact hdir, ?_⟩
  · have harg : atan2 (0 : ℝ) 1 = 0 := by
      rw [atan2]
      have : (⟨1, 0⟩ : ℂ) = 1 := by
        rw [Complex.ext_iff]
        simp
      rw [this, Complex.arg_one]
    simp only [Camera.look_at, Camera.update_vectors, hpos, hdir]
    rw [harg, Real.arcsin_zero]
    simp only [Real.sin_zero, Real.cos_zero, zero_mul, one_mul]
    exact normalize_of_lengthSq_one (by simp [Vec3.lengthSq])
  · intro hcontra
    have := congrArg Vec3.z hcontra
    norm_num at this

end RT



